import Mathlib

/-!
Shallow embedding of the manifest-synthesis core of the etcd-operator
(`internal/controller/factory/statefulset.go`): the data model of the
cluster intent and of the generated workload objects, the volume / mount /
argument / container composers, and the manifest-construction path of
`CreateOrUpdateStatefulSet`.  Collaborators that live outside the embedded
source file (label builder, PVC naming, the strategic-merge primitive,
controller-reference setting) are modelled from the specification and are
marked as such in their doc comments.
-/

namespace EtcdOperator

/-- Kubernetes EmptyDirVolumeSource (the fields relevant to this core). -/
structure EmptyDirVolumeSource where
  medium : String := ""
  sizeLimit : Option String := none
deriving DecidableEq, Repr

/-- Kubernetes PersistentVolumeClaimVolumeSource. -/
structure PersistentVolumeClaimVolumeSource where
  claimName : String
deriving DecidableEq, Repr

/-- Kubernetes SecretVolumeSource (the secret name is the only field the source sets). -/
structure SecretVolumeSource where
  secretName : String
deriving DecidableEq, Repr

/-- Kubernetes VolumeSource: exactly the alternatives the source constructs. -/
structure VolumeSource where
  emptyDir : Option EmptyDirVolumeSource := none
  persistentVolumeClaim : Option PersistentVolumeClaimVolumeSource := none
  secret : Option SecretVolumeSource := none
deriving DecidableEq, Repr

/-- Kubernetes Volume. -/
structure Volume where
  name : String
  volumeSource : VolumeSource
deriving DecidableEq, Repr

/-- Kubernetes VolumeMount. -/
structure VolumeMount where
  name : String
  readOnly : Bool
  mountPath : String
deriving DecidableEq, Repr

/-- Kubernetes HTTPGetAction (path and numeric port, as the source builds it). -/
structure HTTPGetAction where
  path : String
  port : Nat
deriving DecidableEq, Repr

/-- Kubernetes Probe with its embedded handler flattened to the HTTP-get case. -/
structure Probe where
  httpGet : Option HTTPGetAction := none
  periodSeconds : Nat := 0
deriving DecidableEq, Repr

/-- Kubernetes ObjectFieldSelector. -/
structure ObjectFieldSelector where
  fieldPath : String
deriving DecidableEq, Repr

/-- Kubernetes EnvVarSource (field-reference case). -/
structure EnvVarSource where
  fieldRef : Option ObjectFieldSelector := none
deriving DecidableEq, Repr

/-- Kubernetes EnvVar. -/
structure EnvVar where
  name : String
  valueFrom : Option EnvVarSource := none
deriving DecidableEq, Repr

/-- Kubernetes ConfigMapEnvSource (local object reference name). -/
structure ConfigMapEnvSource where
  name : String
deriving DecidableEq, Repr

/-- Kubernetes EnvFromSource. -/
structure EnvFromSource where
  configMapRef : Option ConfigMapEnvSource := none
deriving DecidableEq, Repr

/-- Kubernetes ContainerPort. -/
structure ContainerPort where
  name : String
  containerPort : Nat
deriving DecidableEq, Repr

/-- Kubernetes Container (the fields the source sets). -/
structure Container where
  name : String := ""
  image : String := ""
  command : List String := []
  args : List String := []
  ports : List ContainerPort := []
  envFrom : List EnvFromSource := []
  startupProbe : Option Probe := none
  livenessProbe : Option Probe := none
  readinessProbe : Option Probe := none
  env : List EnvVar := []
  volumeMounts : List VolumeMount := []
deriving DecidableEq, Repr

/-- Kubernetes PodSpec (the fields this core reads or writes).  A Go nil
container slice is distinguished from an empty one, because the source
tests for nil explicitly. -/
structure PodSpec where
  containers : Option (List Container) := none
  volumes : List Volume := []
deriving DecidableEq, Repr

/-- String-to-string map, embedded as an association list with a fixed
iteration order (the order of the list). -/
abbrev StringMap := List (String × String)

/-- Kubernetes ObjectMeta (the fields this core sets).  A Go nil
annotations map is distinguished from an empty one. -/
structure ObjectMeta where
  name : String := ""
  nspace : String := ""
  labels : StringMap := []
  annotations : Option StringMap := none
deriving DecidableEq, Repr

/-- Kubernetes PersistentVolumeClaimSpec, reduced to representative fields;
this core only copies it through. -/
structure PersistentVolumeClaimSpec where
  accessModes : List String := []
  storageClassName : Option String := none
  requestsStorage : String := ""
deriving DecidableEq, Repr

/-- Kubernetes PersistentVolumeClaimStatus, reduced to a representative
field; this core only copies it through. -/
structure PersistentVolumeClaimStatus where
  phase : String := ""
deriving DecidableEq, Repr

/-- Kubernetes PersistentVolumeClaim as it appears in the manifest's
volume-claim-template list. -/
structure PersistentVolumeClaim where
  meta : ObjectMeta := {}
  spec : PersistentVolumeClaimSpec := {}
  status : PersistentVolumeClaimStatus := {}
deriving DecidableEq, Repr

/-- EtcdCluster API: the embedded volume-claim template of the storage spec
(labels, annotations, spec, status — the fields the source reads). -/
structure EmbeddedPersistentVolumeClaim where
  labels : StringMap := []
  annotations : Option StringMap := none
  spec : PersistentVolumeClaimSpec := {}
  status : PersistentVolumeClaimStatus := {}
deriving DecidableEq, Repr

/-- EtcdCluster API: StorageSpec.  `emptyDir` is a nullable pointer in the
source; the volume-claim template is a plain struct whose zero value means
"unset". -/
structure StorageSpec where
  emptyDir : Option EmptyDirVolumeSource := none
  volumeClaimTemplate : EmbeddedPersistentVolumeClaim := {}
deriving DecidableEq, Repr

/-- EtcdCluster API: the TLS section of the security spec (the secret
reference fields the source reads). -/
structure TLSSpec where
  peerTrustedCASecret : String := ""
  peerSecret : String := ""
  serverSecret : String := ""
  clientTrustedCASecret : String := ""
  clientSecret : String := ""
deriving DecidableEq, Repr

/-- EtcdCluster API: SecuritySpec. -/
structure SecuritySpec where
  tls : TLSSpec := {}
deriving DecidableEq, Repr

/-- EtcdCluster API: the pod-template override fragment (labels,
annotations, partial pod spec); label and annotation maps are nullable. -/
structure PodTemplate where
  labels : Option StringMap := none
  annotations : Option StringMap := none
  spec : PodSpec := {}
deriving DecidableEq, Repr

/-- EtcdCluster API: the cluster spec fields this core reads.  The free-form
options map is embedded as an association list with fixed iteration order. -/
structure EtcdClusterSpec where
  replicas : Option Nat := none
  options : StringMap := []
  podTemplate : PodTemplate := {}
  storage : StorageSpec := {}
  security : Option SecuritySpec := none
deriving DecidableEq, Repr

/-- The EtcdCluster intent object. -/
structure EtcdCluster where
  name : String := ""
  nspace : String := ""
  spec : EtcdClusterSpec := {}
deriving DecidableEq, Repr

/-- Kubernetes LabelSelector. -/
structure LabelSelector where
  matchLabels : StringMap := []
deriving DecidableEq, Repr

/-- Kubernetes PodTemplateSpec. -/
structure PodTemplateSpec where
  metadata : ObjectMeta := {}
  spec : PodSpec := {}
deriving DecidableEq, Repr

/-- Kubernetes StatefulSet (the fields the source sets), plus the modelled
owner reference established by `SetControllerReference`. -/
structure StatefulSet where
  meta : ObjectMeta := {}
  replicas : Option Nat := none
  serviceName : String := ""
  podManagementPolicy : String := ""
  selector : LabelSelector := {}
  template : PodTemplateSpec := {}
  volumeClaimTemplates : List PersistentVolumeClaim := []
  ownerRef : Option String := none
deriving DecidableEq, Repr

/-- The container name constant `etcdContainerName`. -/
def etcdContainerName : String := "etcd"

/-- Modelled from the spec: `DefaultEtcdImage` (declared in the API package,
not under src/) — the fixed well-known image identity used when the intent
supplies none. -/
def defaultEtcdImage : String := "quay.io/coreos/etcd:v3.5.12"

/-- Modelled from the spec: the label builder
`NewLabelsBuilder().WithName().WithInstance(name).WithManagedBy()` (not under
src/) — the canonical identity label set, a pure function of the cluster
name, used both as pod labels and as the immutable selector. -/
def labelPolicy (clusterName : String) : StringMap :=
  [("app.kubernetes.io/name", "etcd"),
   ("app.kubernetes.io/instance", clusterName),
   ("app.kubernetes.io/managed-by", "etcd-operator")]

/-- Modelled from the spec: `GetPVCName` (not under src/) — the
persistent-volume-claim name, derived deterministically from the cluster
name by a fixed naming rule. -/
def getPVCName (cluster : EtcdCluster) : String :=
  cluster.name ++ "-data"

/-- Modelled from the spec: `GetClusterStateConfigMapName` (not under
src/) — the name of the cluster-membership bootstrap environment source,
derived deterministically from the cluster name. -/
def getClusterStateConfigMapName (cluster : EtcdCluster) : String :=
  cluster.name ++ "-cluster-state"

/-- The TLS section of the security spec, or its zero value when the
security spec is nil.  Only consulted under guards that also require the
security spec to be present, mirroring the source's short-circuit
`cluster.Spec.Security != nil && ...` conditions. -/
def EtcdCluster.tls (c : EtcdCluster) : TLSSpec :=
  match c.spec.security with
  | some s => s.tls
  | none => {}

/-- The source condition `cluster.Spec.Security != nil &&
cluster.Spec.Security.TLS.PeerSecret != ""`. -/
def EtcdCluster.peerSecretSet (c : EtcdCluster) : Bool :=
  match c.spec.security with
  | some s => s.tls.peerSecret != ""
  | none => false

/-- The source condition `cluster.Spec.Security != nil &&
cluster.Spec.Security.TLS.ServerSecret != ""`. -/
def EtcdCluster.serverSecretSet (c : EtcdCluster) : Bool :=
  match c.spec.security with
  | some s => s.tls.serverSecret != ""
  | none => false

/-- The source condition `cluster.Spec.Security != nil &&
cluster.Spec.Security.TLS.ClientSecret != ""`. -/
def EtcdCluster.clientSecretSet (c : EtcdCluster) : Bool :=
  match c.spec.security with
  | some s => s.tls.clientSecret != ""
  | none => false

/-- The data volume source chosen by `generateVolumes`: the intent's
EmptyDir when set, otherwise a claim reference named by `GetPVCName`. -/
def dataVolumeSource (cluster : EtcdCluster) : VolumeSource :=
  match cluster.spec.storage.emptyDir with
  | some e => { emptyDir := some e }
  | none =>
      { persistentVolumeClaim := some { claimName := getPVCName cluster } }

/-- The peer TLS volume pair appended by `generateVolumes` when the peer
secret is set. -/
def peerVolumes (cluster : EtcdCluster) : List Volume :=
  if cluster.peerSecretSet then
    [{ name := "peer-trusted-ca-certificate",
       volumeSource := { secret := some { secretName := cluster.tls.peerTrustedCASecret } } },
     { name := "peer-certificate",
       volumeSource := { secret := some { secretName := cluster.tls.peerSecret } } }]
  else []

/-- The server TLS volume appended by `generateVolumes` when the server
secret is set. -/
def serverVolumes (cluster : EtcdCluster) : List Volume :=
  if cluster.serverSecretSet then
    [{ name := "server-certificate",
       volumeSource := { secret := some { secretName := cluster.tls.serverSecret } } }]
  else []

/-- The client CA volume appended by `generateVolumes` when the client
secret is set; its secret name is the client trusted-CA secret reference. -/
def clientVolumes (cluster : EtcdCluster) : List Volume :=
  if cluster.clientSecretSet then
    [{ name := "client-trusted-ca-certificate",
       volumeSource := { secret := some { secretName := cluster.tls.clientTrustedCASecret } } }]
  else []

/-- `generateVolumes`. -/
def generateVolumes (cluster : EtcdCluster) : List Volume :=
  [{ name := "data", volumeSource := dataVolumeSource cluster }]
    ++ peerVolumes cluster ++ serverVolumes cluster ++ clientVolumes cluster

/-- The peer TLS mount pair appended by `generateVolumeMounts` when the
peer secret is set. -/
def peerMounts (cluster : EtcdCluster) : List VolumeMount :=
  if cluster.peerSecretSet then
    [{ name := "peer-trusted-ca-certificate", readOnly := true,
       mountPath := "/etc/etcd/pki/peer/ca" },
     { name := "peer-certificate", readOnly := true,
       mountPath := "/etc/etcd/pki/peer/cert" }]
  else []

/-- The server TLS mount appended by `generateVolumeMounts` when the server
secret is set. -/
def serverMounts (cluster : EtcdCluster) : List VolumeMount :=
  if cluster.serverSecretSet then
    [{ name := "server-certificate", readOnly := true,
       mountPath := "/etc/etcd/pki/server/cert" }]
  else []

/-- The client CA mount appended by `generateVolumeMounts` when the client
secret is set. -/
def clientMounts (cluster : EtcdCluster) : List VolumeMount :=
  if cluster.clientSecretSet then
    [{ name := "client-trusted-ca-certificate", readOnly := true,
       mountPath := "/etc/etcd/pki/client/ca" }]
  else []

/-- `generateVolumeMounts`. -/
def generateVolumeMounts (cluster : EtcdCluster) : List VolumeMount :=
  [{ name := "data", readOnly := false, mountPath := "/var/run/etcd" }]
    ++ peerMounts cluster ++ serverMounts cluster ++ clientMounts cluster

/-- `generateEtcdCommand`. -/
def generateEtcdCommand : List String :=
  ["etcd"]

/-- One free-form option rendered as an argument: `--name` when the value
is empty, `--name=value` otherwise. -/
def optionArg (p : String × String) : String :=
  if p.2.length = 0 then "--" ++ p.1 else "--" ++ p.1 ++ "=" ++ p.2

/-- The `peerTlsSettings` local of `generateEtcdArgs`: auto-TLS by default,
explicit file flags when the peer secret is set. -/
def peerTlsSettings (cluster : EtcdCluster) : List String :=
  if cluster.peerSecretSet then
    ["--peer-trusted-ca-file=/etc/etcd/pki/peer/ca/ca.crt",
     "--peer-cert-file=/etc/etcd/pki/peer/cert/tls.crt",
     "--peer-key-file=/etc/etcd/pki/peer/cert/tls.key",
     "--peer-client-cert-auth"]
  else ["--peer-auto-tls"]

/-- The `serverProtocol` local of `generateEtcdArgs`: the client listener
scheme, coupled to the presence of the server secret. -/
def serverProtocol (cluster : EtcdCluster) : String :=
  if cluster.serverSecretSet then "https" else "http"

/-- The `serverTlsSettings` local of `generateEtcdArgs`. -/
def serverTlsSettings (cluster : EtcdCluster) : List String :=
  if cluster.serverSecretSet then
    ["--cert-file=/etc/etcd/pki/server/cert/tls.crt",
     "--key-file=/etc/etcd/pki/server/cert/tls.key"]
  else []

/-- The `clientTlsSettings` local of `generateEtcdArgs`: gated on the
client secret reference. -/
def clientTlsSettings (cluster : EtcdCluster) : List String :=
  if cluster.clientSecretSet then
    ["--trusted-ca-file=/etc/etcd/pki/client/ca/ca.crt",
     "--client-cert-auth"]
  else []

/-- The fixed endpoint/discovery argument block of `generateEtcdArgs`. -/
def fixedEndpointArgs (cluster : EtcdCluster) : List String :=
  ["--name=$(POD_NAME)",
   "--listen-metrics-urls=http://0.0.0.0:2381",
   "--listen-peer-urls=https://0.0.0.0:2380",
   "--listen-client-urls=" ++ serverProtocol cluster ++ "://0.0.0.0:2379",
   "--initial-advertise-peer-urls=https://$(POD_NAME)." ++ cluster.name
     ++ ".$(POD_NAMESPACE).svc:2380",
   "--data-dir=/var/run/etcd/default.etcd",
   "--advertise-client-urls=" ++ serverProtocol cluster ++ "://$(POD_NAME)."
     ++ cluster.name ++ ".$(POD_NAMESPACE).svc:2379"]

/-- `generateEtcdArgs`: free-form options first, then the fixed endpoint
block, then peer, server and client TLS settings. -/
def generateEtcdArgs (cluster : EtcdCluster) : List String :=
  cluster.spec.options.map optionArg
    ++ fixedEndpointArgs cluster
    ++ peerTlsSettings cluster
    ++ serverTlsSettings cluster
    ++ clientTlsSettings cluster

/-- `getStartupProbe`. -/
def getStartupProbe : Probe :=
  { httpGet := some { path := "/readyz?serializable=false", port := 2381 },
    periodSeconds := 5 }

/-- `getReadinessProbe`. -/
def getReadinessProbe : Probe :=
  { httpGet := some { path := "/readyz", port := 2381 },
    periodSeconds := 5 }

/-- `getLivenessProbe`. -/
def getLivenessProbe : Probe :=
  { httpGet := some { path := "/livez", port := 2381 },
    periodSeconds := 5 }

/-- `generateContainer`. -/
def generateContainer (cluster : EtcdCluster) : Container :=
  { name := etcdContainerName,
    image := defaultEtcdImage,
    command := generateEtcdCommand,
    args := generateEtcdArgs cluster,
    ports := [{ name := "peer", containerPort := 2380 },
              { name := "client", containerPort := 2379 }],
    envFrom := [{ configMapRef := some { name := getClusterStateConfigMapName cluster } }],
    startupProbe := some getStartupProbe,
    livenessProbe := some getLivenessProbe,
    readinessProbe := some getReadinessProbe,
    env := [{ name := "POD_NAME",
              valueFrom := some { fieldRef := some { fieldPath := "metadata.name" } } },
            { name := "POD_NAMESPACE",
              valueFrom := some { fieldRef := some { fieldPath := "metadata.namespace" } } }],
    volumeMounts := generateVolumeMounts cluster }

/-- Map update with Go map semantics: the new binding replaces any earlier
binding of the same key. -/
def mapPut (m : StringMap) (k v : String) : StringMap :=
  m.filter (fun p => p.1 != k) ++ [(k, v)]

/-- Folding a sequence of map writes into a base map, mirroring the
`for key, value := range ... { m[key] = value }` loop. -/
def mergeLabelMap (base over : StringMap) : StringMap :=
  over.foldl (fun m p => mapPut m p.1 p.2) base

/-- Merge of two lists keyed by a stable name: baseline elements are
deep-merged with the override element of the same key when one exists, and
override elements with new keys are appended. -/
def mergeKeyed {α : Type} (key : α → String) (m : α → α → α)
    (base over : List α) : List α :=
  base.map (fun b =>
    match over.find? (fun o => key o == key b) with
    | some o => m b o
    | none => b)
  ++ over.filter (fun o => base.all (fun b => key b != key o))

/-- Scalar merge: a non-empty override string replaces the baseline. -/
def mergeScalar (b o : String) : String :=
  if o == "" then b else o

/-- Optional-field merge: an override value, when present, replaces the
baseline value. -/
def mergeOpt {α : Type} (b o : Option α) : Option α :=
  match o with
  | some x => some x
  | none => b

/-- Unkeyed-list merge: the override list replaces the baseline wholesale
when it is supplied. -/
def mergeWhole {α : Type} (b o : List α) : List α :=
  if o.isEmpty then b else o

/-- Modelled from the spec: the per-container deep merge performed by the
strategic-merge primitive — scalars replaced by non-empty overrides, lists
keyed by name merged element-wise, unkeyed lists replaced wholesale. -/
def mergeContainer (b o : Container) : Container :=
  { name := b.name,
    image := mergeScalar b.image o.image,
    command := mergeWhole b.command o.command,
    args := mergeWhole b.args o.args,
    ports := mergeKeyed (fun p => p.name) (fun _ y => y) b.ports o.ports,
    envFrom := mergeWhole b.envFrom o.envFrom,
    startupProbe := mergeOpt b.startupProbe o.startupProbe,
    livenessProbe := mergeOpt b.livenessProbe o.livenessProbe,
    readinessProbe := mergeOpt b.readinessProbe o.readinessProbe,
    env := mergeKeyed (fun e => e.name) (fun _ y => y) b.env o.env,
    volumeMounts := mergeKeyed (fun v => v.name) (fun _ y => y) b.volumeMounts o.volumeMounts }

/-- Modelled from the spec: the per-volume deep merge performed by the
strategic-merge primitive. -/
def mergeVolume (b o : Volume) : Volume :=
  { name := b.name,
    volumeSource :=
      { emptyDir := mergeOpt b.volumeSource.emptyDir o.volumeSource.emptyDir,
        persistentVolumeClaim :=
          mergeOpt b.volumeSource.persistentVolumeClaim o.volumeSource.persistentVolumeClaim,
        secret := mergeOpt b.volumeSource.secret o.volumeSource.secret } }

/-- Modelled from the spec: the generic strategic-merge primitive
`k8sutils.StrategicMerge` (not under src/) — containers and volumes are
lists keyed by name and merged element-wise by key with new keys appended.
Structural incompatibility cannot arise for typed inputs, so the error
branch of the primitive is never taken here. -/
def strategicMerge (base over : PodSpec) : Except String PodSpec :=
  .ok
    { containers := some (mergeKeyed (fun c => c.name) mergeContainer
        (base.containers.getD []) (over.containers.getD [])),
      volumes := mergeKeyed (fun v => v.name) mergeVolume base.volumes over.volumes }

/-- The single nested-field write performed on the input cluster by
`CreateOrUpdateStatefulSet` (line 79 of the source). -/
def withPodTemplateContainers (c : EtcdCluster) (cs : Option (List Container)) : EtcdCluster :=
  { c with spec := { c.spec with podTemplate := { c.spec.podTemplate with
      spec := { c.spec.podTemplate.spec with containers := cs } } } }

/-- The manifest-construction path of `CreateOrUpdateStatefulSet`: builds
the pod metadata, volume-claim templates, base pod spec and merged pod
spec, and assembles the StatefulSet with its modelled controller
reference.  The network reconcile step is outside this path.  The returned
cluster reflects the in-place normalization the source performs on the
input object (a nil pod-template container list is replaced by an empty
one); the source otherwise never writes to the input. -/
def createOrUpdateStatefulSet (cluster : EtcdCluster) :
    EtcdCluster × Except String StatefulSet :=
  let podMetadata : ObjectMeta :=
    { labels :=
        match cluster.spec.podTemplate.labels with
        | some ls => mergeLabelMap (labelPolicy cluster.name) ls
        | none => labelPolicy cluster.name,
      annotations := cluster.spec.podTemplate.annotations }
  let volumeClaimTemplates : List PersistentVolumeClaim :=
    [{ meta := { name := getPVCName cluster,
                 labels := cluster.spec.storage.volumeClaimTemplate.labels,
                 annotations := cluster.spec.storage.volumeClaimTemplate.annotations },
       spec := cluster.spec.storage.volumeClaimTemplate.spec,
       status := cluster.spec.storage.volumeClaimTemplate.status }]
  let volumes := generateVolumes cluster
  let basePodSpec : PodSpec :=
    { containers := some [generateContainer cluster], volumes := volumes }
  let cluster :=
    if cluster.spec.podTemplate.spec.containers = none then
      withPodTemplateContainers cluster (some [])
    else cluster
  match strategicMerge basePodSpec cluster.spec.podTemplate.spec with
  | .error e =>
      (cluster, .error ("cannot strategic-merge base podspec with podTemplate.spec: " ++ e))
  | .ok finalPodSpec =>
      (cluster, .ok
        { meta := { name := cluster.name, nspace := cluster.nspace },
          replicas := cluster.spec.replicas,
          serviceName := cluster.name,
          podManagementPolicy := "Parallel",
          selector := { matchLabels := labelPolicy cluster.name },
          template := { metadata := podMetadata, spec := finalPodSpec },
          volumeClaimTemplates := volumeClaimTemplates,
          ownerRef := some cluster.name })

/-- The five peer-related argument strings `generateEtcdArgs` can emit. -/
def peerArgAll : List String :=
  ["--peer-auto-tls",
   "--peer-trusted-ca-file=/etc/etcd/pki/peer/ca/ca.crt",
   "--peer-cert-file=/etc/etcd/pki/peer/cert/tls.crt",
   "--peer-key-file=/etc/etcd/pki/peer/cert/tls.key",
   "--peer-client-cert-auth"]

/-- Intent with no storage option and no overrides at all. -/
def cNoStorage : EtcdCluster :=
  { name := "a", nspace := "ns" }

/-- Second intent with no storage option, for the C1 witness. -/
def cNoStorageW : EtcdCluster :=
  { name := "w", nspace := "ns" }

/-- A plain intent used to evaluate the probe constants. -/
def cPlain : EtcdCluster :=
  { name := "e", nspace := "ns" }

/-- Ephemeral storage, no security secrets. -/
def cEphNoSec : EtcdCluster :=
  { name := "e", nspace := "ns",
    spec := { storage := { emptyDir := some {} } } }

/-- Second ephemeral intent, for the C7 witness. -/
def cEphNoSecW : EtcdCluster :=
  { name := "w", nspace := "ns",
    spec := { storage := { emptyDir := some {} } } }

/-- Server secret only. -/
def cServerOnly : EtcdCluster :=
  { name := "e", nspace := "ns",
    spec := { security := some { tls := { serverSecret := "s" } } } }

/-- Peer secret set together with a free-form option that renders the
auto-TLS flag. -/
def cPeerAutoOpt : EtcdCluster :=
  { name := "e", nspace := "ns",
    spec := { options := [("peer-auto-tls", "")],
              security := some { tls := { peerSecret := "p" } } } }

/-- Peer secret only, empty peer trusted-CA reference. -/
def cPeerOnlyW : EtcdCluster :=
  { name := "w", nspace := "ns",
    spec := { security := some { tls := { peerSecret := "p" } } } }

/-- Client trusted-CA reference set, client secret unset. -/
def cClientCAOnly : EtcdCluster :=
  { name := "e", nspace := "ns",
    spec := { security := some { tls := { clientTrustedCASecret := "c" } } } }

/-- Client secret only. -/
def cClientOnly : EtcdCluster :=
  { name := "e", nspace := "ns",
    spec := { security := some { tls := { clientSecret := "cs" } } } }

/-- Unequal string lengths give unequal strings. -/
theorem ne_of_length_ne {a b : String} (h : a.length ≠ b.length) : a ≠ b :=
  fun e => h (congrArg String.length e)

/-- A target string missed by every rendered free-form option is not in the
rendered option segment. -/
theorem not_mem_options_map (c : EtcdCluster) (t : String)
    (hOpt : ∀ p ∈ c.spec.options, optionArg p ≠ t) :
    t ∉ c.spec.options.map optionArg := by
  intro hmem
  rcases List.mem_map.mp hmem with ⟨p, hp, he⟩
  exact hOpt p hp he

/-- A short string distinct from every concrete fixed endpoint argument is
not in the fixed endpoint block: the two advertise arguments are longer
than 60 characters for every cluster name, and the remaining five are
closed strings once the scheme is resolved. -/
theorem not_mem_fixedEndpointArgs (c : EtcdCluster) (t : String)
    (hlen : t.length ≤ 60)
    (h1 : t ≠ "--name=$(POD_NAME)")
    (h2 : t ≠ "--listen-metrics-urls=http://0.0.0.0:2381")
    (h3 : t ≠ "--listen-peer-urls=https://0.0.0.0:2380")
    (h4 : t ≠ "--listen-client-urls=http://0.0.0.0:2379")
    (h5 : t ≠ "--listen-client-urls=https://0.0.0.0:2379")
    (h6 : t ≠ "--data-dir=/var/run/etcd/default.etcd") :
    t ∉ fixedEndpointArgs c := by
  intro hmem
  simp only [fixedEndpointArgs, List.mem_cons, List.not_mem_nil, or_false] at hmem
  rcases hmem with h | h | h | h | h | h | h
  · exact h1 h
  · exact h2 h
  · exact h3 h
  · cases hs : c.serverSecretSet
    · rw [serverProtocol] at h
      simp only [hs] at h
      exact h4 (by rw [h]; rfl)
    · rw [serverProtocol] at h
      simp only [hs] at h
      exact h5 (by rw [h]; rfl)
  · have hl := congrArg String.length h
    rw [String.length_append, String.length_append] at hl
    have e1 : ("--initial-advertise-peer-urls=https://$(POD_NAME).").length = 50 := by decide
    have e2 : (".$(POD_NAMESPACE).svc:2380").length = 26 := by decide
    omega
  · exact h6 h
  · have hl := congrArg String.length h
    rw [String.length_append, String.length_append, String.length_append,
      String.length_append] at hl
    have e1 : ("--advertise-client-urls=").length = 24 := by decide
    have e2 : ("://$(POD_NAME).").length = 15 := by decide
    have e3 : (".$(POD_NAMESPACE).svc:2379").length = 26 := by decide
    omega

/-- None of the five peer argument strings occurs in the fixed endpoint
block, for any cluster. -/
theorem peer_flag_not_in_fixed (c : EtcdCluster) (t : String)
    (ht : t ∈ peerArgAll) : t ∉ fixedEndpointArgs c := by
  simp only [peerArgAll, List.mem_cons, List.not_mem_nil, or_false] at ht
  rcases ht with rfl | rfl | rfl | rfl | rfl <;>
    exact not_mem_fixedEndpointArgs c _ (by decide) (by decide) (by decide)
      (by decide) (by decide) (by decide) (by decide)

/-- None of the five peer argument strings occurs in the server or client
TLS segments, for any cluster. -/
theorem peer_flag_not_in_server_client (c : EtcdCluster) (t : String)
    (ht : t ∈ peerArgAll) :
    t ∉ serverTlsSettings c ∧ t ∉ clientTlsSettings c := by
  constructor <;> intro hmem
  · rw [serverTlsSettings] at hmem
    cases hs : c.serverSecretSet
    · simp only [hs] at hmem
      exact List.not_mem_nil _ hmem
    · simp only [hs, if_true, List.mem_cons, List.not_mem_nil, or_false] at hmem
      rcases hmem with rfl | rfl <;> exact absurd ht (by decide)
  · rw [clientTlsSettings] at hmem
    cases hc : c.clientSecretSet
    · simp only [hc] at hmem
      exact List.not_mem_nil _ hmem
    · simp only [hc, if_true, List.mem_cons, List.not_mem_nil, or_false] at hmem
      rcases hmem with rfl | rfl <;> exact absurd ht (by decide)

/-- A peer argument string absent from the rendered options and from the
peer segment is absent from the whole generated argument list. -/
theorem peer_target_not_in_args (c : EtcdCluster) (t : String)
    (ht : t ∈ peerArgAll)
    (hOpt : ∀ p ∈ c.spec.options, optionArg p ≠ t)
    (hpeer : t ∉ peerTlsSettings c) :
    t ∉ generateEtcdArgs c := by
  intro hmem
  simp only [generateEtcdArgs, List.mem_append] at hmem
  rcases hmem with ((((ho | hf) | hp2) | hs2) | hc2)
  · exact not_mem_options_map c t hOpt ho
  · exact peer_flag_not_in_fixed c t ht hf
  · exact hpeer hp2
  · exact (peer_flag_not_in_server_client c t ht).1 hs2
  · exact (peer_flag_not_in_server_client c t ht).2 hc2

/-- The names of the generated volumes, in order, as a function of the
three secret-presence conditions. -/
theorem volume_names (c : EtcdCluster) :
    (generateVolumes c).map Volume.name =
      "data" ::
        ((if c.peerSecretSet then ["peer-trusted-ca-certificate", "peer-certificate"] else [])
          ++ (if c.serverSecretSet then ["server-certificate"] else [])
          ++ (if c.clientSecretSet then ["client-trusted-ca-certificate"] else [])) := by
  cases hp : c.peerSecretSet <;> cases hs : c.serverSecretSet <;> cases hc : c.clientSecretSet <;>
    simp [generateVolumes, peerVolumes, serverVolumes, clientVolumes, hp, hs, hc]

/-- The names of the generated volume mounts, in order, equal to the
volume name list for every combination of the secret-presence
conditions. -/
theorem mount_names (c : EtcdCluster) :
    (generateVolumeMounts c).map VolumeMount.name =
      "data" ::
        ((if c.peerSecretSet then ["peer-trusted-ca-certificate", "peer-certificate"] else [])
          ++ (if c.serverSecretSet then ["server-certificate"] else [])
          ++ (if c.clientSecretSet then ["client-trusted-ca-certificate"] else [])) := by
  cases hp : c.peerSecretSet <;> cases hs : c.serverSecretSet <;> cases hc : c.clientSecretSet <;>
    simp [generateVolumeMounts, peerMounts, serverMounts, clientMounts, hp, hs, hc]

/-- C1 counterexample: with neither the EmptyDir nor the volume-claim
template set, synthesis does not fail — it produces a manifest, and the
data volume silently falls back to a claim reference derived from the
cluster name.  This refutes the claim that synthesis fails immediately
with an InvalidIntent error. -/
theorem claim_C1_counterexample :
    (createOrUpdateStatefulSet cNoStorage).2.isOk = true ∧
    generateVolumes cNoStorage =
      [{ name := "data",
         volumeSource := { persistentVolumeClaim := some { claimName := "a-data" } } }] :=
  ⟨rfl, rfl⟩

/-- C1 (amended): synthesis performs no storage validation; when the
EmptyDir option is unset (in particular when the volume-claim template is
also unset) it still produces a manifest, and the data volume is backed by
a persistent-volume-claim reference named from the cluster. -/
theorem claim_C1 (c : EtcdCluster) (h : c.spec.storage.emptyDir = none) :
    (createOrUpdateStatefulSet c).2.isOk = true ∧
    (generateVolumes c).head? = some
      { name := "data",
        volumeSource := { persistentVolumeClaim := some { claimName := getPVCName c } } } := by
  constructor
  · rfl
  · simp [generateVolumes, dataVolumeSource, h]

/-- C1 witness: the amended claim evaluated at a concrete intent with
neither storage option set. -/
theorem claim_C1_witness :
    (createOrUpdateStatefulSet cNoStorageW).2.isOk = true ∧
    (generateVolumes cNoStorageW).head? = some
      { name := "data",
        volumeSource := { persistentVolumeClaim := some { claimName := getPVCName cNoStorageW } } } :=
  claim_C1 cNoStorageW rfl

/-- C2 counterexample: the generated readiness probe polls `/readyz`, not
`/readyz?serializable=false`, refuting the claim that startup and
readiness probes share the serializable-false path. -/
theorem claim_C2_counterexample :
    (generateContainer cPlain).readinessProbe =
      some { httpGet := some { path := "/readyz", port := 2381 }, periodSeconds := 5 } ∧
    "/readyz" ≠ "/readyz?serializable=false" :=
  ⟨rfl, by decide⟩

/-- C2 (amended): for every intent, the startup probe performs an HTTP GET
on `/readyz?serializable=false`, the readiness probe on `/readyz`, and the
liveness probe on `/livez`, all at port 2381 with a period of 5. -/
theorem claim_C2 (c : EtcdCluster) :
    (generateContainer c).startupProbe =
      some { httpGet := some { path := "/readyz?serializable=false", port := 2381 },
             periodSeconds := 5 } ∧
    (generateContainer c).readinessProbe =
      some { httpGet := some { path := "/readyz", port := 2381 }, periodSeconds := 5 } ∧
    (generateContainer c).livenessProbe =
      some { httpGet := some { path := "/livez", port := 2381 }, periodSeconds := 5 } :=
  ⟨rfl, rfl, rfl⟩

/-- C5: for every intent (hence for all 8 secret-presence combinations),
the volume list and the mount list have the same names in the same order:
data first, then the peer pair when the peer secret is set, then the
server certificate when the server secret is set, then the client
trusted-CA when the client secret is set; in particular both lists have
equal length. -/
theorem claim_C5 (c : EtcdCluster) :
    (generateVolumes c).map Volume.name = (generateVolumeMounts c).map VolumeMount.name ∧
    (generateVolumes c).map Volume.name =
      "data" ::
        ((if c.peerSecretSet then ["peer-trusted-ca-certificate", "peer-certificate"] else [])
          ++ (if c.serverSecretSet then ["server-certificate"] else [])
          ++ (if c.clientSecretSet then ["client-trusted-ca-certificate"] else [])) ∧
    (generateVolumes c).length = (generateVolumeMounts c).length := by
  refine ⟨(volume_names c).trans (mount_names c).symm, volume_names c, ?_⟩
  have h := congrArg List.length ((volume_names c).trans (mount_names c).symm)
  simpa using h

/-- C7 counterexample: with ephemeral storage and no security secrets the
generated container has exactly 1 volume mount, not 2, refuting the
mount-count part of the scenario. -/
theorem claim_C7_counterexample :
    cEphNoSec.spec.storage.emptyDir = some {} ∧
    cEphNoSec.spec.security = none ∧
    (generateContainer cEphNoSec).volumeMounts.length = 1 ∧
    (1 : Nat) ≠ 2 := by
  refine ⟨rfl, rfl, rfl, by decide⟩

/-- C7 (amended): for every intent with ephemeral storage and no security
secrets set, the volume list is exactly one data volume backed by the
ephemeral source, the argument list contains `--peer-auto-tls`, the client
scheme is `http`, and the container has exactly 1 volume mount (the data
mount). -/
theorem claim_C7 (c : EtcdCluster) (e : EmptyDirVolumeSource)
    (h1 : c.spec.storage.emptyDir = some e)
    (h2 : c.peerSecretSet = false)
    (h3 : c.serverSecretSet = false)
    (h4 : c.clientSecretSet = false) :
    generateVolumes c = [{ name := "data", volumeSource := { emptyDir := some e } }] ∧
    "--peer-auto-tls" ∈ generateEtcdArgs c ∧
    serverProtocol c = "http" ∧
    (generateContainer c).volumeMounts.length = 1 := by
  refine ⟨?_, ?_, ?_, ?_⟩
  · simp [generateVolumes, dataVolumeSource, h1, peerVolumes, serverVolumes, clientVolumes,
      h2, h3, h4]
  · simp [generateEtcdArgs, peerTlsSettings, h2]
  · simp [serverProtocol, h3]
  · simp [generateContainer, generateVolumeMounts, peerMounts, serverMounts, clientMounts,
      h2, h3, h4]

/-- C7 witness: the amended scenario evaluated at a concrete ephemeral
intent without security secrets. -/
theorem claim_C7_witness :
    generateVolumes cEphNoSecW =
      [{ name := "data", volumeSource := { emptyDir := some {} } }] ∧
    "--peer-auto-tls" ∈ generateEtcdArgs cEphNoSecW ∧
    serverProtocol cEphNoSecW = "http" ∧
    (generateContainer cEphNoSecW).volumeMounts.length = 1 :=
  claim_C7 cEphNoSecW {} rfl rfl rfl rfl

/-- C8 counterexample: the manifest-construction path writes to the input
cluster — with a nil pod-template container list, the returned cluster
differs from the input (the list has been replaced by an empty one),
refuting the claim that every field of the input is left unchanged. -/
theorem claim_C8_counterexample :
    (createOrUpdateStatefulSet cNoStorage).1 ≠ cNoStorage := by
  decide

/-- C8 (amended): the input cluster is left unchanged by manifest
construction except for one normalization — a nil pod-template container
list is replaced by an empty list; with a non-nil container list the input
is returned exactly as given. -/
theorem claim_C8 (c : EtcdCluster) :
    (createOrUpdateStatefulSet c).1 =
      (if c.spec.podTemplate.spec.containers = none
       then withPodTemplateContainers c (some []) else c) :=
  rfl

/-- C9: synthesis is deterministic — with the free-form flag mapping's
iteration order fixed (as the embedding fixes it), two runs of the
pipeline on equal intents produce structurally identical manifests,
volumes, mounts, containers, and argument lists. -/
theorem claim_C9 (c₁ c₂ : EtcdCluster) (h : c₁ = c₂) :
    (createOrUpdateStatefulSet c₁).2 = (createOrUpdateStatefulSet c₂).2 ∧
    generateVolumes c₁ = generateVolumes c₂ ∧
    generateVolumeMounts c₁ = generateVolumeMounts c₂ ∧
    generateContainer c₁ = generateContainer c₂ ∧
    generateEtcdArgs c₁ = generateEtcdArgs c₂ := by
  subst h
  exact ⟨rfl, rfl, rfl, rfl, rfl⟩

/-- C9 witness: two runs on the same concrete intent give the same
manifest and components. -/
theorem claim_C9_witness :
    (createOrUpdateStatefulSet cPlain).2 = (createOrUpdateStatefulSet cPlain).2 ∧
    generateVolumes cPlain = generateVolumes cPlain ∧
    generateVolumeMounts cPlain = generateVolumeMounts cPlain ∧
    generateContainer cPlain = generateContainer cPlain ∧
    generateEtcdArgs cPlain = generateEtcdArgs cPlain :=
  claim_C9 cPlain cPlain rfl

/-- C3: for every intent, the generated `--listen-client-urls` and
`--advertise-client-urls` arguments both use the single derived scheme,
which is `https` exactly when the server secret is set and `http` exactly
when it is not — no intent produces a scheme mismatch between the two. -/
theorem claim_C3 (c : EtcdCluster) :
    ("--listen-client-urls=" ++ serverProtocol c ++ "://0.0.0.0:2379")
      ∈ generateEtcdArgs c ∧
    ("--advertise-client-urls=" ++ serverProtocol c ++ "://$(POD_NAME)." ++ c.name
        ++ ".$(POD_NAMESPACE).svc:2379") ∈ generateEtcdArgs c ∧
    (serverProtocol c = "https" ↔ c.serverSecretSet = true) ∧
    (serverProtocol c = "http" ↔ c.serverSecretSet = false) := by
  refine ⟨?_, ?_, ?_, ?_⟩
  · simp [generateEtcdArgs, fixedEndpointArgs]
  · simp [generateEtcdArgs, fixedEndpointArgs]
  · cases hs : c.serverSecretSet <;> simp [serverProtocol, hs]
  · cases hs : c.serverSecretSet <;> simp [serverProtocol, hs]

/-- C3 witness: with a server secret set, both client URL arguments carry
the `https` scheme. -/
theorem claim_C3_witness :
    ("--listen-client-urls=" ++ serverProtocol cServerOnly ++ "://0.0.0.0:2379")
      ∈ generateEtcdArgs cServerOnly ∧
    serverProtocol cServerOnly = "https" :=
  ⟨(claim_C3 cServerOnly).1, (claim_C3 cServerOnly).2.2.1.mpr rfl⟩

/-- C4 counterexample: a free-form option named `peer-auto-tls` makes the
generated argument list contain `--peer-auto-tls` even though the peer
secret is set, refuting the claim's universal "does not contain
`--peer-auto-tls`" part. -/
theorem claim_C4_counterexample :
    cPeerAutoOpt.peerSecretSet = true ∧
    "--peer-auto-tls" ∈ generateEtcdArgs cPeerAutoOpt := by
  decide

/-- C4 (amended): for every intent whose free-form options do not
themselves render one of the peer argument strings — if the peer secret is
empty the argument list contains `--peer-auto-tls` and none of the
explicit peer CA/cert/key file flags, and if the peer secret is non-empty
it contains the peer trusted-CA/cert/key file flags and
`--peer-client-cert-auth` and does not contain `--peer-auto-tls`. -/
theorem claim_C4 (c : EtcdCluster)
    (hOpt : ∀ p ∈ c.spec.options, ∀ t ∈ peerArgAll, optionArg p ≠ t) :
    (c.peerSecretSet = false →
       "--peer-auto-tls" ∈ generateEtcdArgs c ∧
       "--peer-trusted-ca-file=/etc/etcd/pki/peer/ca/ca.crt" ∉ generateEtcdArgs c ∧
       "--peer-cert-file=/etc/etcd/pki/peer/cert/tls.crt" ∉ generateEtcdArgs c ∧
       "--peer-key-file=/etc/etcd/pki/peer/cert/tls.key" ∉ generateEtcdArgs c) ∧
    (c.peerSecretSet = true →
       "--peer-trusted-ca-file=/etc/etcd/pki/peer/ca/ca.crt" ∈ generateEtcdArgs c ∧
       "--peer-cert-file=/etc/etcd/pki/peer/cert/tls.crt" ∈ generateEtcdArgs c ∧
       "--peer-key-file=/etc/etcd/pki/peer/cert/tls.key" ∈ generateEtcdArgs c ∧
       "--peer-client-cert-auth" ∈ generateEtcdArgs c ∧
       "--peer-auto-tls" ∉ generateEtcdArgs c) := by
  constructor
  · intro hp
    have hseg : peerTlsSettings c = ["--peer-auto-tls"] := by
      simp [peerTlsSettings, hp]
    refine ⟨?_, ?_, ?_, ?_⟩
    · simp [generateEtcdArgs, hseg]
    · exact peer_target_not_in_args c _ (by decide)
        (fun p hp2 => hOpt p hp2 _ (by decide)) (by rw [hseg]; decide)
    · exact peer_target_not_in_args c _ (by decide)
        (fun p hp2 => hOpt p hp2 _ (by decide)) (by rw [hseg]; decide)
    · exact peer_target_not_in_args c _ (by decide)
        (fun p hp2 => hOpt p hp2 _ (by decide)) (by rw [hseg]; decide)
  · intro hp
    have hseg : peerTlsSettings c =
        ["--peer-trusted-ca-file=/etc/etcd/pki/peer/ca/ca.crt",
         "--peer-cert-file=/etc/etcd/pki/peer/cert/tls.crt",
         "--peer-key-file=/etc/etcd/pki/peer/cert/tls.key",
         "--peer-client-cert-auth"] := by
      simp [peerTlsSettings, hp]
    refine ⟨?_, ?_, ?_, ?_, ?_⟩
    · simp [generateEtcdArgs, hseg]
    · simp [generateEtcdArgs, hseg]
    · simp [generateEtcdArgs, hseg]
    · simp [generateEtcdArgs, hseg]
    · exact peer_target_not_in_args c _ (by decide)
        (fun p hp2 => hOpt p hp2 _ (by decide)) (by rw [hseg]; decide)

/-- C4 witness: at a concrete intent with only the peer secret set and no
free-form options, the explicit peer flags are present and the auto-TLS
flag is absent. -/
theorem claim_C4_witness :
    "--peer-trusted-ca-file=/etc/etcd/pki/peer/ca/ca.crt" ∈ generateEtcdArgs cPeerOnlyW ∧
    "--peer-auto-tls" ∉ generateEtcdArgs cPeerOnlyW :=
  ⟨((claim_C4 cPeerOnlyW (by decide)).2 (by decide)).1,
   ((claim_C4 cPeerOnlyW (by decide)).2 (by decide)).2.2.2.2⟩

/-- C6 counterexample: an intent with the client trusted-CA secret set but
the client secret unset yields neither `--trusted-ca-file` nor
`--client-cert-auth`, refuting the claim that the flags are gated on the
trusted-CA reference. -/
theorem claim_C6_counterexample :
    cClientCAOnly.spec.security = some { tls := { clientTrustedCASecret := "c" } } ∧
    "--trusted-ca-file=/etc/etcd/pki/client/ca/ca.crt" ∉ generateEtcdArgs cClientCAOnly ∧
    "--client-cert-auth" ∉ generateEtcdArgs cClientCAOnly := by
  decide

/-- C6 (amended): the client-CA TLS argument pair is emitted if and only
if the client transport secret reference is non-empty (the client
trusted-CA reference only names the mounted secret); an intent with the
client transport secret set yields both flags in the argument list. -/
theorem claim_C6 (c : EtcdCluster) :
    (clientTlsSettings c =
        ["--trusted-ca-file=/etc/etcd/pki/client/ca/ca.crt", "--client-cert-auth"]
      ↔ c.clientSecretSet = true) ∧
    (clientTlsSettings c = [] ↔ c.clientSecretSet = false) ∧
    (c.clientSecretSet = true →
       "--trusted-ca-file=/etc/etcd/pki/client/ca/ca.crt" ∈ generateEtcdArgs c ∧
       "--client-cert-auth" ∈ generateEtcdArgs c) := by
  cases hc : c.clientSecretSet <;>
    simp [clientTlsSettings, hc, generateEtcdArgs]

/-- C6 witness: at a concrete intent with only the client transport secret
set, both client-CA TLS flags appear in the generated arguments. -/
theorem claim_C6_witness :
    "--trusted-ca-file=/etc/etcd/pki/client/ca/ca.crt" ∈ generateEtcdArgs cClientOnly ∧
    "--client-cert-auth" ∈ generateEtcdArgs cClientOnly :=
  (claim_C6 cClientOnly).2.2 (by decide)

/-- C10: the peer volume pair, the peer mount pair and the explicit peer
TLS flags are gated solely on the peer transport secret: when it is set
they are emitted as a pair with the CA volume's secret name taken verbatim
from the peer trusted-CA field (validated nowhere, empty or not), and when
it is unset nothing peer-related is emitted regardless of the trusted-CA
field. -/
theorem claim_C10 (c : EtcdCluster) :
    (c.peerSecretSet = true →
       peerVolumes c =
         [{ name := "peer-trusted-ca-certificate",
            volumeSource := { secret := some { secretName := c.tls.peerTrustedCASecret } } },
          { name := "peer-certificate",
            volumeSource := { secret := some { secretName := c.tls.peerSecret } } }] ∧
       peerMounts c =
         [{ name := "peer-trusted-ca-certificate", readOnly := true,
            mountPath := "/etc/etcd/pki/peer/ca" },
          { name := "peer-certificate", readOnly := true,
            mountPath := "/etc/etcd/pki/peer/cert" }] ∧
       peerTlsSettings c =
         ["--peer-trusted-ca-file=/etc/etcd/pki/peer/ca/ca.crt",
          "--peer-cert-file=/etc/etcd/pki/peer/cert/tls.crt",
          "--peer-key-file=/etc/etcd/pki/peer/cert/tls.key",
          "--peer-client-cert-auth"]) ∧
    (c.peerSecretSet = false →
       peerVolumes c = [] ∧
       peerMounts c = [] ∧
       peerTlsSettings c = ["--peer-auto-tls"] ∧
       (∀ v ∈ generateVolumes c,
          v.name ≠ "peer-trusted-ca-certificate" ∧ v.name ≠ "peer-certificate") ∧
       (∀ m ∈ generateVolumeMounts c,
          m.name ≠ "peer-trusted-ca-certificate" ∧ m.name ≠ "peer-certificate")) := by
  constructor
  · intro hp
    exact ⟨by simp [peerVolumes, hp], by simp [peerMounts, hp], by simp [peerTlsSettings, hp]⟩
  · intro hp
    refine ⟨by simp [peerVolumes, hp], by simp [peerMounts, hp],
      by simp [peerTlsSettings, hp], ?_, ?_⟩
    · intro v hv
      have hn := List.mem_map_of_mem Volume.name hv
      rw [volume_names c] at hn
      cases hs : c.serverSecretSet <;> cases hc : c.clientSecretSet <;>
        simp only [hp, hs, hc, Bool.false_eq_true, if_false, if_true,
          List.nil_append, List.append_nil, List.singleton_append] at hn <;>
        (constructor <;> intro heq <;> rw [heq] at hn <;> exact absurd hn (by decide))
    · intro m hm
      have hn := List.mem_map_of_mem VolumeMount.name hm
      rw [mount_names c] at hn
      cases hs : c.serverSecretSet <;> cases hc : c.clientSecretSet <;>
        simp only [hp, hs, hc, Bool.false_eq_true, if_false, if_true,
          List.nil_append, List.append_nil, List.singleton_append] at hn <;>
        (constructor <;> intro heq <;> rw [heq] at hn <;> exact absurd hn (by decide))

/-- C10 witness: with the peer secret set and the peer trusted-CA field
left empty, the pair is still emitted and the CA volume names the empty
secret verbatim; a peerless intent emits only the auto-TLS flag. -/
theorem claim_C10_witness :
    peerVolumes cPeerOnlyW =
      [{ name := "peer-trusted-ca-certificate",
         volumeSource := { secret := some { secretName := "" } } },
       { name := "peer-certificate",
         volumeSource := { secret := some { secretName := "p" } } }] ∧
    peerTlsSettings cPlain = ["--peer-auto-tls"] :=
  ⟨((claim_C10 cPeerOnlyW).1 (by decide)).1,
   ((claim_C10 cPlain).2 (by decide)).2.2.1⟩

end EtcdOperator
